import Mathlib

/-
Verification of the Jingle (XEP-0166) / In-Band Bytestream (XEP-0047)
receive core of the profanity client, shallowly embedded from
src/xmpp/jingle.c and src/xmpp/ibb.c.

Registries (GHashTable with string keys) are modelled as association
lists; g_hash_table_insert replaces an existing entry in place,
g_hash_table_remove deletes the (unique) entry with the key.
-/

namespace Profanity

/-- Lookup in the association-list model of a GHashTable. -/
def tableLookup {α : Type} : List (String × α) → String → Option α
  | [], _ => none
  | (k, v) :: t, key => if k = key then some v else tableLookup t key

/-- Model of g_hash_table_contains. -/
def tableContains {α : Type} (t : List (String × α)) (k : String) : Bool :=
  (tableLookup t k).isSome

/-- Model of g_hash_table_insert: replaces the entry in place if the key
exists (the old value is destroyed), otherwise appends. -/
def tableInsert {α : Type} : List (String × α) → String → α → List (String × α)
  | [], k, v => [(k, v)]
  | (k', v') :: t, k, v =>
    if k' = k then (k, v) :: t else (k', v') :: tableInsert t k v

/-- Model of g_hash_table_remove for a key that occurs at most once. -/
def tableRemove {α : Type} : List (String × α) → String → List (String × α)
  | [], _ => []
  | (k', v') :: t, k => if k' = k then t else (k', v') :: tableRemove t k

theorem tableLookup_tableInsert_self {α : Type} (t : List (String × α))
    (k : String) (v : α) : tableLookup (tableInsert t k v) k = some v := by
  induction t with
  | nil => simp [tableInsert, tableLookup]
  | cons p t ih =>
    obtain ⟨k', v'⟩ := p
    by_cases h : k' = k
    · simp [tableInsert, tableLookup, h]
    · simp [tableInsert, tableLookup, h, ih]

-- ### C string and number helpers

/-- Characters the C isspace accepts (ASCII locale), as consumed by strtol
and atoi before the number. -/
def cIsSpace (c : Char) : Bool :=
  c = ' ' || c = '\t' || c = '\n' || c.toNat = 11 || c.toNat = 12 || c.toNat = 13

/-- Sign handling of strtol and atoi: an optional single leading sign. -/
def splitSign (cs : List Char) : Bool × List Char :=
  match cs with
  | [] => (false, [])
  | c :: t =>
    if c = '-' then (true, t)
    else if c = '+' then (false, t)
    else (false, c :: t)

/-- Accumulate the value of a big-endian run of decimal digit characters. -/
def decValue (cs : List Char) : Nat :=
  cs.foldl (fun a c => a * 10 + (c.toNat - 48)) 0

/-- Model of the source helper that wraps strtol(str, endptr, 10):
leading isspace characters, an optional sign, a digit run; the conversion
succeeds only when nothing follows the digit run (the *endptr == 0 check).
When strtol performs no conversion endptr stays at the start of the
string, so only the empty string passes the endptr check with value 0.
The helper then rejects values outside 0..65535 (negative values and
overflow set errno or fail the range test). -/
def convert_str_to_uint16 (s : String) : Option Nat :=
  let cs := s.data
  let body := cs.dropWhile cIsSpace
  let (neg, ds) := splitSign body
  let digits := ds.takeWhile Char.isDigit
  let rest := ds.dropWhile Char.isDigit
  if digits.isEmpty then
    if cs.isEmpty then some 0 else none
  else if rest.isEmpty then
    let v := decValue digits
    if neg then (if v = 0 then some 0 else none)
    else if 65535 < v then none
    else some v
  else none

/-- Model of atoi as used on the block-size attribute of an inbound
transport element, with the int result assigned to an unsigned field:
leading isspace characters, optional sign, longest digit prefix (trailing
junk ignored), reduced modulo 2^32 by the unsigned assignment. -/
def atoiUint (s : String) : Nat :=
  let body := s.data.dropWhile cIsSpace
  let (neg, ds) := splitSign body
  let digits := ds.takeWhile Char.isDigit
  let v := decValue digits
  let i : Int := if neg then -(v : Int) else (v : Int)
  (i % 4294967296).toNat

/-- Modelled from the spec: string_to_ul lives in src/common.c, which is
not among the sources under review; the spec describes FileInfo size as
an "unsigned integer, parsed from string" and the conversion as fallible.
Modelled as: fails on a missing string, succeeds on a nonempty all-digit
decimal string, fails otherwise. -/
def string_to_ul : Option String → Option Nat
  | none => none
  | some s =>
    if s.data.isEmpty then none
    else if s.data.all Char.isDigit then some (decValue s.data)
    else none

/-- The ASCII digit emitted by printf for one decimal digit value. -/
def digitChar (d : Nat) : Char :=
  if d = 0 then '0' else if d = 1 then '1' else if d = 2 then '2'
  else if d = 3 then '3' else if d = 4 then '4' else if d = 5 then '5'
  else if d = 6 then '6' else if d = 7 then '7' else if d = 8 then '8'
  else if d = 9 then '9' else '?'

/-- Little-endian decimal digit values of n; the fuel argument (at least n)
makes the recursion structural. -/
def decimalDigitsAux : Nat → Nat → List Nat
  | 0, _ => []
  | fuel + 1, n => if n = 0 then [] else n % 10 :: decimalDigitsAux fuel (n / 10)

def decimalDigits (n : Nat) : List Nat := decimalDigitsAux n n

/-- Model of snprintf("%u", value), also used for g_strdup_printf("%u").
Shared by uint_to_str in jingle.c and the block-size rendering in ibb.c. -/
def uint_to_str (n : Nat) : String :=
  if n = 0 then "0" else ⟨(decimalDigits n).reverse.map digitChar⟩

-- ### Round-trip facts about the decimal helpers

theorem decimalDigitsAux_lt (fuel n : Nat) :
    ∀ d ∈ decimalDigitsAux fuel n, d < 10 := by
  induction fuel generalizing n with
  | zero => intro d hd; simp [decimalDigitsAux] at hd
  | succ fuel ih =>
    intro d hd
    by_cases h : n = 0
    · simp [decimalDigitsAux, h] at hd
    · simp [decimalDigitsAux, h] at hd
      rcases hd with h1 | h2
      · omega
      · exact ih (n / 10) d h2

theorem foldr_decimalDigitsAux (fuel n : Nat) (h : n ≤ fuel) :
    (decimalDigitsAux fuel n).foldr (fun d a => a * 10 + d) 0 = n := by
  induction fuel generalizing n with
  | zero => simp [decimalDigitsAux]; omega
  | succ fuel ih =>
    by_cases h0 : n = 0
    · simp [decimalDigitsAux, h0]
    · have hdiv : n / 10 ≤ fuel := by omega
      simp [decimalDigitsAux, h0, ih (n / 10) hdiv]
      omega

theorem digitChar_isDigit {d : Nat} (h : d < 10) :
    (digitChar d).isDigit = true := by
  interval_cases d <;> decide

theorem digitChar_toNat {d : Nat} (h : d < 10) :
    (digitChar d).toNat - 48 = d := by
  interval_cases d <;> decide

theorem digitChar_not_space (d : Nat) : cIsSpace (digitChar d) = false := by
  unfold digitChar
  split_ifs <;> decide

theorem digitChar_ne_minus (d : Nat) : digitChar d ≠ '-' := by
  unfold digitChar
  split_ifs <;> decide

theorem digitChar_ne_plus (d : Nat) : digitChar d ≠ '+' := by
  unfold digitChar
  split_ifs <;> decide

theorem takeWhile_isDigit_map (M : List Nat) (h : ∀ d ∈ M, d < 10) :
    (M.map digitChar).takeWhile Char.isDigit = M.map digitChar := by
  rw [List.takeWhile_eq_self_iff]
  intro c hc
  obtain ⟨d, hd, rfl⟩ := List.mem_map.mp hc
  exact digitChar_isDigit (h d hd)

theorem foldl_decValue_map (M : List Nat) (h : ∀ d ∈ M, d < 10) :
    ∀ acc : Nat,
      (M.map digitChar).foldl (fun a c => a * 10 + (c.toNat - 48)) acc
        = M.foldl (fun a d => a * 10 + d) acc := by
  induction M with
  | nil => intro acc; rfl
  | cons d M ih =>
    intro acc
    have hd : d < 10 := h d (by simp)
    simp [List.foldl, digitChar_toNat hd]
    exact ih (fun x hx => h x (by simp [hx])) _

theorem atoiUint_uint_to_str {b : Nat} (h : b < 4294967296) :
    atoiUint (uint_to_str b) = b := by
  by_cases hb0 : b = 0
  · subst hb0; decide
  · have hne : decimalDigits b ≠ [] := by
      unfold decimalDigits
      cases b with
      | zero => exact absurd rfl hb0
      | succ m => simp [decimalDigitsAux]
    set M : List Nat := (decimalDigits b).reverse with hM
    have hlt : ∀ d ∈ M, d < 10 := by
      intro d hd
      exact decimalDigitsAux_lt b b d (List.mem_reverse.mp hd)
    have hMne : M ≠ [] := by
      simpa [hM] using hne
    obtain ⟨d0, M', hcons⟩ := List.exists_cons_of_ne_nil hMne
    have hdrop : (M.map digitChar).dropWhile cIsSpace = M.map digitChar := by
      rw [hcons]
      simp [List.dropWhile, digitChar_not_space]
    have hsign : splitSign (M.map digitChar) = (false, M.map digitChar) := by
      rw [hcons]
      simp [splitSign, digitChar_ne_minus, digitChar_ne_plus]
    have hval : decValue ((M.map digitChar).takeWhile Char.isDigit) = b := by
      rw [takeWhile_isDigit_map M hlt]
      unfold decValue
      rw [foldl_decValue_map M hlt 0, hM, List.foldl_reverse]
      exact foldr_decimalDigitsAux b b (Nat.le_refl b)
    unfold uint_to_str
    rw [if_neg hb0]
    simp only [atoiUint, hdrop, hsign, hval, Bool.false_eq_true, if_false]
    omega

-- ### Jingle data model (jingle.h types as used by jingle.c and ibb.c)

/-- prof_jingle_state_t. -/
inductive JingleState where
  | initiated
  | accepted
  | transferFinished
deriving DecidableEq

/-- prof_jingle_creator_t. -/
inductive Creator where
  | initiator
  | responder
  | unknown
deriving DecidableEq

/-- prof_jingle_senders_t. -/
inductive Senders where
  | both
  | initiator
  | responder
  | none
  | unknown
deriving DecidableEq

/-- prof_jingle_description_type_t. -/
inductive DescriptionType where
  | fileTransfer
  | rtp
deriving DecidableEq

/-- prof_jingle_transport_type_t. -/
inductive TransportType where
  | inBandBytestream
  | socks5
deriving DecidableEq

/-- prof_jingle_file_info_t: five strings extracted from the file element;
each may be NULL when the child is absent. -/
structure FileInfo where
  type : Option String
  date : Option String
  name : Option String
  size : Option String
  hash : Option String
deriving DecidableEq

/-- prof_jingle_transport_t. The candidates pointer is always NULL in the
parsed model and is omitted. -/
structure Transport where
  type : TransportType
  sid : String
  blocksize : Nat
deriving DecidableEq

/-- prof_jingle_description_t. The source stores a void pointer with an
enum discriminator; only the file-transfer payload is ever created by the
parser, so the payload is a FileInfo. -/
structure Description where
  type : DescriptionType
  payload : FileInfo
deriving DecidableEq

/-- prof_jingle_content_t. The state field is never initialised by the
session-initiate parser in the source and is omitted. -/
structure Content where
  name : String
  creator : Creator
  senders : Senders
  description : Description
  transport : Transport
deriving DecidableEq

/-- prof_jingle_session_t. -/
structure Session where
  initiator : String
  jingle_sid : String
  state : JingleState
  content_table : List (String × Content)
deriving DecidableEq

-- Namespace constants from stanza.h (stanza.h is not among the sources
-- under review; the values follow the spec wire section, and the RTP and
-- SOCKS5 namespaces are only required to be distinct from the others).
def STANZA_NS_JINGLE_FT5 : String := "urn:xmpp:jingle:apps:file-transfer:5"
def STANZA_NS_JINGLE_TRANSPORTS_IBB : String := "urn:xmpp:jingle:transports:ibb:1"
def STANZA_NS_JINGLE_TRANSPORTS_S5B : String := "urn:xmpp:jingle:transports:s5b:1"
def STANZA_NS_JINGLE_RTP : String := "urn:xmpp:jingle:apps:rtp:1"

-- ### Typed views of the stanzas the handlers read
-- The strophe accessors (xmpp_stanza_get_attribute, get_child_by_name,
-- get_text, ...) are external collaborators; these records hold exactly
-- the values those accessors would return, with none for NULL.

/-- The file element inside a description: text of each known child. -/
structure FileStanza where
  mediaType : Option String
  date : Option String
  name : Option String
  size : Option String
  hash : Option String
deriving DecidableEq

/-- A description child of a content element. -/
structure DescriptionStanza where
  ns : Option String
  file : Option FileStanza
deriving DecidableEq

/-- A transport child of a content element. The sid and block-size
attributes are read without NULL checks by the source (strdup and atoi
would have undefined behaviour on NULL), so they are required here. -/
structure TransportStanza where
  ns : Option String
  sid : String
  blockSizeRaw : String
deriving DecidableEq

/-- One child element of the jingle element; tag is the element name
(children whose tag is not "content" are skipped by the parser). -/
structure ContentChild where
  tag : String
  name : Option String
  creator : Option String
  senders : Option String
  description : Option DescriptionStanza
  transport : Option TransportStanza
deriving DecidableEq

/-- The inbound session-initiate IQ as read by _handle_session_init. -/
structure InitStanza where
  sender : String
  id : String
  sid : Option String
  initiator : Option String
  children : List ContentChild
deriving DecidableEq

/-- The inbound IBB open IQ as read by _on_bytestream_open. The sid
attribute is passed to g_hash_table_contains without a NULL check, so it
is required. -/
structure OpenStanza where
  id : String
  sender : String
  sid : String
  blockSize : Option String
deriving DecidableEq

/-- The inbound IBB data IQ as read by _on_bytestream_data. decoded is
the result of g_base64_decode (external, glib) on the text body: none
models a NULL result (missing text or undecodable body), some gives the
decoded bytes. -/
structure DataStanza where
  id : String
  sender : String
  sid : Option String
  seqRaw : Option String
  decoded : Option (List Nat)
deriving DecidableEq

/-- Outbound envelopes emitted by the handlers, in emission order.
Outbound request ids created by connection_create_stanza_id (external)
are omitted; the ibbClose id reuses the inbound stanza id as the source
does. -/
inductive Envelope where
  | ack (id target : String)
  | errorReply (id target etype econd : String)
  | ibbClose (id target sid : String)
  | sessionAccept (target sid responder : String) (contents : List ContentChild)
  | sessionTerminate (target sid reason : String)
deriving DecidableEq

-- ### jingle.c: parsers and handlers

/-- _parse_content_creator: NULL or unrecognised raw strings give unknown. -/
def parse_content_creator : Option String → Creator
  | Option.none => .unknown
  | some raw =>
    if raw = "initiator" then .initiator
    else if raw = "responder" then .responder
    else .unknown

/-- _parse_content_senders: NULL or unrecognised raw strings give unknown
(tolerated by the caller). -/
def parse_content_senders : Option String → Senders
  | Option.none => .unknown
  | some raw =>
    if raw = "both" then .both
    else if raw = "initiator" then .initiator
    else if raw = "responder" then .responder
    else if raw = "none" then .none
    else .unknown

/-- _stringify_senders. -/
def stringify_senders : Senders → String
  | .both => "both"
  | .initiator => "initiator"
  | .responder => "responder"
  | .none => "none"
  | .unknown => "unknown"

/-- _jingle_description_type_to_ns. -/
def description_type_to_ns : DescriptionType → Option String
  | .fileTransfer => some STANZA_NS_JINGLE_FT5
  | .rtp => some STANZA_NS_JINGLE_RTP

/-- _jingle_transport_type_to_ns. -/
def transport_type_to_ns : TransportType → Option String
  | .inBandBytestream => some STANZA_NS_JINGLE_TRANSPORTS_IBB
  | .socks5 => some STANZA_NS_JINGLE_TRANSPORTS_S5B

/-- Outcome of one iteration of the content loop in _handle_session_init.
Several failure branches of the source loop say continue without moving
content_stanza to the next sibling, so the while loop never terminates:
hang records those branches. -/
inductive StepResult where
  | proceed (table : List (String × Content))
  | hang
deriving DecidableEq

/-- One iteration of the content loop of _handle_session_init, in source
order: skip non-content tags; missing description, missing transport,
missing description namespace, a description namespace other than
file-transfer v5, a missing name and an unknown creator all fail without
advancing the iterator (hang); a missing transport namespace, a missing
file element and a non-IBB transport namespace skip the content; an
accepted content is inserted into the table under its name, replacing any
earlier content with that name. -/
def parseContentStep (table : List (String × Content)) (c : ContentChild) :
    StepResult :=
  if c.tag ≠ "content" then .proceed table
  else
    match c.description with
    | Option.none => .hang
    | some desc =>
      match c.transport with
      | Option.none => .hang
      | some tr =>
        match tr.ns with
        | Option.none => .proceed table
        | some _ =>
          match desc.ns with
          | Option.none => .hang
          | some dns =>
            if dns ≠ STANZA_NS_JINGLE_FT5 then .hang
            else
              match c.name with
              | Option.none => .hang
              | some cname =>
                if parse_content_creator c.creator = .unknown then .hang
                else
                  let senders := parse_content_senders c.senders
                  match desc.file with
                  | Option.none => .proceed table
                  | some fs =>
                    let fileInfo : FileInfo :=
                      ⟨fs.mediaType, fs.date, fs.name, fs.size, fs.hash⟩
                    if tr.ns ≠ some STANZA_NS_JINGLE_TRANSPORTS_IBB then
                      .proceed table
                    else
                      let content : Content :=
                        ⟨cname, parse_content_creator c.creator, senders,
                         ⟨.fileTransfer, fileInfo⟩,
                         ⟨.inBandBytestream, tr.sid, atoiUint tr.blockSizeRaw⟩⟩
                      .proceed (tableInsert table cname content)

/-- The content loop of _handle_session_init; none models the
non-terminating branches of the source loop. -/
def parseContents : List (String × Content) → List ContentChild →
    Option (List (String × Content))
  | table, [] => some table
  | table, c :: rest =>
    match parseContentStep table c with
    | .proceed table1 => parseContents table1 rest
    | .hang => Option.none

/-- The content element built for one Content by _accept_session: the
creator attribute is the literal "initiator" rather than the stored
creator; senders is stringified; the description carries the file element
with name, media-type, date, size and hash (the last only when present);
the transport carries sid and the printf rendering of blocksize. -/
def buildAcceptContent (c : Content) : ContentChild :=
  { tag := "content"
    name := some c.name
    creator := some "initiator"
    senders := some (stringify_senders c.senders)
    description := some
      { ns := description_type_to_ns c.description.type
        file := some
          { mediaType := c.description.payload.type
            date := c.description.payload.date
            name := c.description.payload.name
            size := c.description.payload.size
            hash := c.description.payload.hash } }
    transport := some
      { ns := transport_type_to_ns c.transport.type
        sid := c.transport.sid
        blockSizeRaw := uint_to_str c.transport.blocksize } }

/-- State and output of a jingle handler: the session registry after the
call and the envelopes sent during it, in order. -/
structure JingleOut where
  sessions : List (String × Session)
  sent : List Envelope
deriving DecidableEq

/-- _handle_session_init, jingle.c lines 219-378. Validation: sid and
initiator must be present and initiator must equal the IQ sender, all
failing silently. Then the result ack is sent, a fresh Initiated session
is inserted (replacing any session under the same sid), and if the jingle
element has no children at all the session is terminated with reason
cancel and removed. Otherwise the content loop runs (none when it hangs)
and _accept_session unconditionally sends session-accept and marks the
session Accepted, whether or not any content was parsed. myJid models
connection_get_barejid. -/
def handle_session_init (myJid : String) (reg : List (String × Session))
    (st : InitStanza) : Option JingleOut :=
  match st.sid with
  | Option.none => some ⟨reg, []⟩
  | some sid =>
    match st.initiator with
    | Option.none => some ⟨reg, []⟩
    | some initiator =>
      if initiator ≠ st.sender then some ⟨reg, []⟩
      else
        let session0 : Session := ⟨initiator, sid, .initiated, []⟩
        let reg1 := tableInsert reg sid session0
        if st.children = [] then
          some ⟨tableRemove reg1 sid,
                [Envelope.ack st.id st.sender,
                 Envelope.sessionTerminate initiator sid "cancel"]⟩
        else
          match parseContents [] st.children with
          | Option.none => Option.none
          | some table =>
            let session2 : Session := ⟨initiator, sid, .accepted, table⟩
            some ⟨tableInsert reg1 sid session2,
                  [Envelope.ack st.id st.sender,
                   Envelope.sessionAccept initiator sid myJid
                     (table.map (fun p => buildAcceptContent p.2))]⟩

/-- get_content_by_transport_id: scans every live session's content table
for the content whose transport sid matches. -/
def get_content_by_transport_id (sessions : List (String × Session))
    (transport_id : String) : Option Content :=
  sessions.findSome? (fun s =>
    s.2.content_table.findSome? (fun p =>
      if p.2.transport.sid = transport_id then some p.2 else Option.none))

-- ### ibb.c: transfer state machine

/-- ibb_session_t: one active in-band bytestream reception. seq is the
uint16_t field holding the last accepted sequence number; stream models
the FILE pointer as the bytes written to the current sink (none while no
sink is open; fopen with mode wb starts an empty file). -/
structure IbbTransfer where
  file : FileInfo
  seq : Nat
  stream : Option (List Nat)
deriving DecidableEq

/-- External effects the data handler depends on: whether resolving the
download location and fopen succeed (files and filesystem are external
collaborators). -/
structure IbbEnv where
  fopenOk : Bool
deriving DecidableEq

/-- Result of an IBB handler: the transfer registry afterwards, the
envelopes sent in order, and the transport sids passed to
set_content_state_by_transport_id (the jingle-layer completion callback
_send_close invokes after removing a transfer). -/
structure IbbOut where
  table : List (String × IbbTransfer)
  sent : List Envelope
  finished : List String
deriving DecidableEq

/-- The bytes fprintf(stream, "%.*s", (int)data_size, data) appends: a
text-formatting directive stops at the first NUL byte even below the
precision, so only the prefix before the first zero byte reaches the
sink. -/
def fprintfBytes (data : List Nat) : List Nat :=
  data.takeWhile (fun b => b ≠ 0)

/-- _on_bytestream_open, ibb.c lines 123-184. In order: a sid already in
the registry is answered cancel/not-acceptable; an unresolvable content
or a non-IBB transport is answered cancel/not-acceptable; a block-size
attribute that differs from the printf rendering of the negotiated block
size (g_strcmp0, byte-wise string comparison) is answered
modify/resource-constraint; otherwise a transfer with seq 0 and no sink
is inserted and the result ack is sent. -/
def on_bytestream_open (sessions : List (String × Session))
    (table : List (String × IbbTransfer)) (st : OpenStanza) :
    List (String × IbbTransfer) × List Envelope :=
  if tableContains table st.sid then
    (table, [Envelope.errorReply st.id st.sender "cancel" "not-acceptable"])
  else
    match get_content_by_transport_id sessions st.sid with
    | Option.none =>
      (table, [Envelope.errorReply st.id st.sender "cancel" "not-acceptable"])
    | some content =>
      if content.transport.type ≠ .inBandBytestream then
        (table, [Envelope.errorReply st.id st.sender "cancel" "not-acceptable"])
      else if st.blockSize ≠ some (uint_to_str content.transport.blocksize) then
        (table, [Envelope.errorReply st.id st.sender "modify" "resource-constraint"])
      else
        (tableInsert table st.sid ⟨content.description.payload, 0, Option.none⟩,
         [Envelope.ack st.id st.sender])

/-- _on_bytestream_data, ibb.c lines 186-293, in source order: a missing
sid or an unparseable seq attribute returns silently; a NULL base64
decode is answered cancel/bad-request; an unknown sid is answered
cancel/item-not-found; then the sequence policy runs: seq 0 is accepted
whenever the stored seq is 0 (reopening a fresh sink even if one is
already open), any other seq is accepted only when it equals stored
seq + 1 (plain integer arithmetic, no wraparound); rejected sequences,
fopen failure, a missing stream and an unconvertible file size all send
close and destroy the transfer; an accepted block appends the
fprintf-written bytes, sends the ack, and closes when the sink position
reaches the file size. -/
def on_bytestream_data (env : IbbEnv) (table : List (String × IbbTransfer))
    (st : DataStanza) : IbbOut :=
  match st.sid with
  | Option.none => ⟨table, [], []⟩
  | some sid =>
    match st.seqRaw with
    | Option.none => ⟨table, [], []⟩
    | some seqRaw =>
      match convert_str_to_uint16 seqRaw with
      | Option.none => ⟨table, [], []⟩
      | some seq =>
        match st.decoded with
        | Option.none =>
          ⟨table, [Envelope.errorReply st.id st.sender "cancel" "bad-request"], []⟩
        | some data =>
          match tableLookup table sid with
          | Option.none =>
            ⟨table, [Envelope.errorReply st.id st.sender "cancel" "item-not-found"], []⟩
          | some session =>
            let step : Option IbbTransfer :=
              if seq = 0 then
                if session.seq ≠ 0 then Option.none
                else if env.fopenOk then some { session with stream := some [] }
                else Option.none
              else if session.seq + 1 ≠ seq then Option.none
              else some { session with seq := session.seq + 1 }
            match step with
            | Option.none =>
              ⟨tableRemove table sid, [Envelope.ibbClose st.id st.sender sid], [sid]⟩
            | some session1 =>
              match session1.stream with
              | Option.none =>
                ⟨tableRemove table sid, [Envelope.ibbClose st.id st.sender sid], [sid]⟩
              | some bytes =>
                match string_to_ul session1.file.size with
                | Option.none =>
                  ⟨tableRemove table sid, [Envelope.ibbClose st.id st.sender sid], [sid]⟩
                | some fileSize =>
                  let bytes1 := bytes ++ fprintfBytes data
                  if bytes1.length ≥ fileSize then
                    ⟨tableRemove table sid,
                     [Envelope.ack st.id st.sender,
                      Envelope.ibbClose st.id st.sender sid], [sid]⟩
                  else
                    ⟨tableInsert table sid { session1 with stream := some bytes1 },
                     [Envelope.ack st.id st.sender], []⟩

/-- The inbound session-terminate IQ as read by the terminate handler. -/
structure TerminateStanza where
  sender : String
  id : String
  sid : Option String
deriving DecidableEq

/-- Combined registries a session-terminate would have to touch. -/
structure TermOut where
  sessions : List (String × Session)
  transfers : List (String × IbbTransfer)
  sent : List Envelope
  handled : Bool
deriving DecidableEq

/-- _handle_terminate_session, jingle.c lines 380-385: the body is a
single comment and return TRUE — no registry access, no envelope. -/
def handle_terminate_session (sessions : List (String × Session))
    (transfers : List (String × IbbTransfer)) (_st : TerminateStanza) : TermOut :=
  ⟨sessions, transfers, [], true⟩

/-- Feed the content element emitted by _accept_session for one Content
back through the inbound content loop of _handle_session_init and return
the content it stores. -/
def roundTripContent (c : Content) : Option Content :=
  match parseContentStep [] (buildAcceptContent c) with
  | .proceed table => tableLookup table c.name
  | .hang => Option.none

-- ### Claim C1

def c1File : FileInfo :=
  ⟨Option.none, Option.none, some "f.bin", some "999", Option.none⟩

def c1Stanza : DataStanza :=
  ⟨"i1", "romeo@montague.net/orchard", some "t1", some "0", some [65, 0, 66]⟩

/-- C1: the claim says an accepted block writes exactly its decoded bytes
to the sink regardless of their values, NUL bytes included, and that
bytes_written equals the sum of decoded block lengths. At a transfer at
its initial point, a seq 0 block whose body decodes to the three bytes
65, 0, 66 is accepted and acked, but the fprintf text write stops at the
NUL: the sink holds the single byte 65, so the sink position is 1 while
the decoded length is 3. -/
theorem c1_nul_truncation :
    on_bytestream_data ⟨true⟩ [("t1", ⟨c1File, 0, Option.none⟩)] c1Stanza
        = ⟨[("t1", ⟨c1File, 0, some [65]⟩)],
           [Envelope.ack "i1" "romeo@montague.net/orchard"], []⟩
      ∧ ([65] : List Nat).length = 1 ∧ ([65, 0, 66] : List Nat).length = 3 := by
  decide

-- ### Claim C2

def c2File : FileInfo :=
  ⟨Option.none, Option.none, some "kitten.jpg", some "8192", Option.none⟩

def c2Content : Content :=
  ⟨"c1", .initiator, .initiator, ⟨.fileTransfer, c2File⟩,
   ⟨.inBandBytestream, "t1", 4096⟩⟩

def c2Sessions : List (String × Session) :=
  [("s1", ⟨"romeo@montague.net/orchard", "s1", .accepted, [("c1", c2Content)]⟩)]

def c2Transfers : List (String × IbbTransfer) :=
  [("t1", ⟨c2File, 0, some [1, 2, 3]⟩)]

def c2Term : TerminateStanza := ⟨"romeo@montague.net/orchard", "id9", some "s1"⟩

def c2Data : DataStanza :=
  ⟨"i2", "romeo@montague.net/orchard", some "t1", some "1", some [4]⟩

/-- C2: the claim says handling an inbound session-terminate for a live
session removes the session and its transfers, after which a data stanza
for one of its transport sids is answered cancel/item-not-found. The
terminate handler in the source is an unimplemented stub: on a live
session s1 with transfer t1 it leaves both registries untouched and sends
nothing, and a subsequent data stanza for t1 is still accepted and acked
rather than answered item-not-found. -/
theorem c2_terminate_stub_noop :
    handle_terminate_session c2Sessions c2Transfers c2Term
        = ⟨c2Sessions, c2Transfers, [], true⟩
      ∧ on_bytestream_data ⟨true⟩
          (handle_terminate_session c2Sessions c2Transfers c2Term).transfers c2Data
          = ⟨[("t1", ⟨c2File, 1, some [1, 2, 3, 4]⟩)],
             [Envelope.ack "i2" "romeo@montague.net/orchard"], []⟩ := by
  decide

-- ### Claim C4

def c4File : FileInfo :=
  ⟨Option.none, Option.none, some "big.bin", some "999999999", Option.none⟩

def c4Stanza : DataStanza :=
  ⟨"i4", "peer@example.org/r", some "t1", some "0", some [9]⟩

/-- C4: the claim says sequence arithmetic is modulo 65536, so after
accepting block 65535 the block with seq 0 equal to 65536 mod 65536 is
accepted. On a transfer whose stored seq is 65535 the source instead
takes the seq 0 branch, finds the stored seq nonzero, sends close and
removes the transfer: no wraparound. -/
theorem c4_no_wraparound :
    on_bytestream_data ⟨true⟩ [("t1", ⟨c4File, 65535, some [1]⟩)] c4Stanza
        = ⟨[], [Envelope.ibbClose "i4" "peer@example.org/r" "t1"], ["t1"]⟩
      ∧ (65535 + 1) % 65536 = 0 := by
  decide

-- ### Claim C7

def c7FileStanza : FileStanza :=
  ⟨some "image/jpeg", some "2023-01-01", some "kitten.jpg", some "8192", Option.none⟩

def c7Child (tsid : String) : ContentChild :=
  ⟨"content", some "dup", some "initiator", some "both",
   some ⟨some STANZA_NS_JINGLE_FT5, some c7FileStanza⟩,
   some ⟨some STANZA_NS_JINGLE_TRANSPORTS_IBB, tsid, "4096"⟩⟩

def c7Stanza : InitStanza :=
  ⟨"romeo@montague.net/orchard", "id7", some "s1",
   some "romeo@montague.net/orchard", [c7Child "t1", c7Child "t2"]⟩

/-- C7: the claim says a content child whose name duplicates one already
in the session content map is rejected and the earlier content stays
unchanged. On a session-initiate with two valid contents both named dup,
the first carrying transport sid t1 and the second t2, the source inserts
the duplicate with g_hash_table_insert, which replaces: the final map has
one entry and it holds the later content with sid t2. -/
theorem c7_duplicate_replaces :
    ((handle_session_init "juliet@capulet.com" [] c7Stanza).bind
        (fun out => tableLookup out.sessions "s1")).map
        (fun s => (s.content_table.length,
                   (tableLookup s.content_table "dup").map
                     (fun c => c.transport.sid)))
      = some (1, some "t2") := by
  decide

-- ### Claim C3

def c3FileStanza : FileStanza :=
  ⟨some "image/jpeg", some "2023-01-01", some "kitten.jpg", some "8192", Option.none⟩

def c3Child : ContentChild :=
  ⟨"content", some "c1", some "initiator", some "both",
   some ⟨some STANZA_NS_JINGLE_FT5, some c3FileStanza⟩,
   some ⟨some STANZA_NS_JINGLE_TRANSPORTS_S5B, "t1", "4096"⟩⟩

def c3Stanza : InitStanza :=
  ⟨"romeo@montague.net/orchard", "id3", some "s1",
   some "romeo@montague.net/orchard", [c3Child]⟩

/-- C3 counterexample: the claim says that whenever no content child
parses successfully the local side emits session-terminate with reason
cancel and drops the session. A session-initiate with one content child
carrying an unsupported (SOCKS5) transport namespace parses to an empty
content map, yet the source keeps the session, marks it Accepted and
emits session-accept with no contents; no terminate is sent. The source
only terminates when the jingle element has no children at all. -/
theorem c3_counterexample :
    handle_session_init "juliet@capulet.com" [] c3Stanza
      = some ⟨[("s1", ⟨"romeo@montague.net/orchard", "s1", .accepted, []⟩)],
              [Envelope.ack "id3" "romeo@montague.net/orchard",
               Envelope.sessionAccept "romeo@montague.net/orchard" "s1"
                 "juliet@capulet.com" []]⟩ := by
  decide

-- ### Claim C5

def c5File : FileInfo :=
  ⟨Option.none, Option.none, some "f5.bin", some "999", Option.none⟩

def c5Table : List (String × IbbTransfer) := [("t1", ⟨c5File, 0, some [10, 20]⟩)]

def c5Stanza : DataStanza := ⟨"i5", "p5", some "t1", some "0", some [7, 8]⟩

/-- C5 counterexample: the claim says a seq 0 block is accepted only when
expected_seq is 0 AND no sink is open, and that a seq 0 block arriving
with a sink already open triggers close and destruction. On a transfer
with stored seq 0 and an open sink holding two bytes, a second seq 0
block is accepted: the source checks only the stored seq, reopens a fresh
sink, writes the new bytes and acks; the transfer stays registered and no
close is sent. -/
theorem c5_counterexample :
    on_bytestream_data ⟨true⟩ c5Table c5Stanza
      = ⟨[("t1", ⟨c5File, 0, some [7, 8]⟩)], [Envelope.ack "i5" "p5"], []⟩ := by
  decide

-- ### Claim C6

def c6File : FileInfo :=
  ⟨some "image/jpeg", some "2023-01-01", some "kitten.jpg", some "8192", Option.none⟩

def c6Content : Content :=
  ⟨"c1", .initiator, .both, ⟨.fileTransfer, c6File⟩,
   ⟨.inBandBytestream, "t1", 4096⟩⟩

def c6Sessions : List (String × Session) :=
  [("s1", ⟨"romeo@montague.net/orchard", "s1", .accepted, [("c1", c6Content)]⟩)]

/-- C6 counterexample: the claim says the open's block-size attribute and
the negotiated block size are compared as decimal integers, so the
attribute 04096 against a negotiated 4096 creates a transfer. The source
compares the printf rendering of the negotiated size with the attribute
byte-wise (g_strcmp0): 04096 differs from 4096 as strings although both
parse to the decimal value 4096, so the open is answered
modify/resource-constraint and no transfer is created. -/
theorem c6_counterexample :
    on_bytestream_open c6Sessions []
        ⟨"i6", "romeo@montague.net/orchard", "t1", some "04096"⟩
      = ([], [Envelope.errorReply "i6" "romeo@montague.net/orchard"
                "modify" "resource-constraint"])
      ∧ atoiUint "04096" = 4096 ∧ atoiUint "4096" = 4096 := by
  decide

-- ### Claim C8

def c8Content : Content :=
  ⟨"c8", .responder, .responder,
   ⟨.fileTransfer, ⟨some "text/plain", some "2023-02-02", some "n.txt", some "5", some "beef"⟩⟩,
   ⟨.inBandBytestream, "t8", 4096⟩⟩

/-- C8 counterexample: the claim says every field round-trips through the
emitted session-accept, in particular a content whose stored creator is
Responder parses back with creator Responder. The accept builder writes
the literal attribute initiator for every content, so the content above,
stored with creator Responder, parses back with creator Initiator. -/
theorem c8_counterexample :
    (roundTripContent c8Content).map (fun c => c.creator) = some Creator.initiator
      ∧ c8Content.creator = Creator.responder := by
  decide

-- ### Claim C9

/-- C9 counterexample: the claim says an unknown sid is answered
cancel/item-not-found regardless of whether the seq attribute parses or
the body decodes, sid resolution being the first validation step. In the
source the sid lookup comes third: with an unknown sid and an unparseable
seq attribute the stanza is dropped silently with no reply at all, and
with an unknown sid and a NULL base64 decode the reply is
cancel/bad-request. -/
theorem c9_counterexample :
    on_bytestream_data ⟨true⟩ [] ⟨"i9", "p9", some "bogus", some "x", some [1]⟩
        = ⟨[], [], []⟩
      ∧ on_bytestream_data ⟨true⟩ []
          ⟨"i9b", "p9", some "bogus", some "0", Option.none⟩
          = ⟨[], [Envelope.errorReply "i9b" "p9" "cancel" "bad-request"], []⟩ := by
  decide

/-- C3: the claim amended to what the source does: the cancel-terminate
path is taken exactly when the jingle element has no child elements at
all (before any parsing); whenever children are present and the content
loop terminates, the session transitions to Accepted and session-accept
is emitted even if the resulting content map is empty. -/
theorem c3_amended (myJid : String) (reg : List (String × Session))
    (st : InitStanza) (sid ini : String)
    (hsid : st.sid = some sid) (hini : st.initiator = some ini)
    (hfrom : ini = st.sender) :
    (st.children = [] →
      handle_session_init myJid reg st =
        some ⟨tableRemove (tableInsert reg sid ⟨ini, sid, .initiated, []⟩) sid,
              [Envelope.ack st.id st.sender,
               Envelope.sessionTerminate ini sid "cancel"]⟩) ∧
    (∀ table, st.children ≠ [] → parseContents [] st.children = some table →
      handle_session_init myJid reg st =
        some ⟨tableInsert (tableInsert reg sid ⟨ini, sid, .initiated, []⟩) sid
                ⟨ini, sid, .accepted, table⟩,
              [Envelope.ack st.id st.sender,
               Envelope.sessionAccept ini sid myJid
                 (table.map (fun p => buildAcceptContent p.2))]⟩) := by
  constructor
  · intro hch
    simp [handle_session_init, hsid, hini, hfrom, hch]
  · intro table hch hp
    simp [handle_session_init, hsid, hini, hfrom, hch, hp]

def c3wStanza : InitStanza :=
  ⟨"romeo@montague.net/orchard", "id3w", some "s1",
   some "romeo@montague.net/orchard", [c3Child]⟩

/-- C3 witness: the amended theorem applied to a concrete initiate whose
single content is skipped for its SOCKS5 transport namespace. -/
theorem c3_amended_witness :
    c3wStanza.children ≠ [] ∧
    parseContents [] c3wStanza.children = some [] ∧
    handle_session_init "juliet@capulet.com" [] c3wStanza =
      some ⟨tableInsert
              (tableInsert [] "s1"
                ⟨"romeo@montague.net/orchard", "s1", .initiated, []⟩) "s1"
              ⟨"romeo@montague.net/orchard", "s1", .accepted, []⟩,
            [Envelope.ack "id3w" "romeo@montague.net/orchard",
             Envelope.sessionAccept "romeo@montague.net/orchard" "s1"
               "juliet@capulet.com" []]⟩ :=
  ⟨by decide, by decide,
   (c3_amended "juliet@capulet.com" [] c3wStanza "s1" "romeo@montague.net/orchard"
      rfl rfl rfl).2 [] (by decide) (by decide)⟩

/-- C5: the claim amended to what the source does: a seq 0 block is
accepted whenever the stored seq is 0, whether or not a sink is already
open; an already-open sink is replaced by a freshly opened empty one
rather than aborting; close and destruction happen only when the stored
seq is nonzero. -/
theorem c5_amended (env : IbbEnv) (table : List (String × IbbTransfer))
    (st : DataStanza) (sid seqRaw : String) (s : IbbTransfer) (d : List Nat)
    (fsz : Nat)
    (hsid : st.sid = some sid) (hraw : st.seqRaw = some seqRaw)
    (hseq : convert_str_to_uint16 seqRaw = some 0)
    (hdec : st.decoded = some d) (hs : tableLookup table sid = some s)
    (hopen : env.fopenOk = true)
    (hsz : string_to_ul s.file.size = some fsz)
    (hlt : (fprintfBytes d).length < fsz) :
    (s.seq = 0 →
      on_bytestream_data env table st =
        ⟨tableInsert table sid { s with stream := some (fprintfBytes d) },
         [Envelope.ack st.id st.sender], []⟩) ∧
    (s.seq ≠ 0 →
      on_bytestream_data env table st =
        ⟨tableRemove table sid, [Envelope.ibbClose st.id st.sender sid], [sid]⟩) := by
  constructor
  · intro h0
    simp [on_bytestream_data, hsid, hraw, hseq, hdec, hs, h0, hopen, hsz,
          Nat.not_le.mpr hlt]
  · intro h0
    simp [on_bytestream_data, hsid, hraw, hseq, hdec, hs, h0]

/-- C5 witness: the amended theorem applied to the transfer with stored
seq 0 and an open sink holding two bytes: the duplicate seq 0 block is
accepted and the sink is replaced. -/
theorem c5_amended_witness :
    tableLookup c5Table "t1" = some ⟨c5File, 0, some [10, 20]⟩ ∧
    on_bytestream_data ⟨true⟩ c5Table c5Stanza =
      ⟨tableInsert c5Table "t1" ⟨c5File, 0, some (fprintfBytes [7, 8])⟩,
       [Envelope.ack "i5" "p5"], []⟩ :=
  ⟨by decide,
   (c5_amended ⟨true⟩ c5Table c5Stanza "t1" "0" ⟨c5File, 0, some [10, 20]⟩
      [7, 8] 999 rfl rfl (by decide) rfl rfl rfl (by decide) (by decide)).1 rfl⟩

/-- C6: the claim amended to what the source does: the open succeeds
exactly when the block-size attribute equals the printf rendering of the
negotiated block size byte-for-byte; every other attribute value, whether
its decimal value differs (off by one included) or agrees in a
non-canonical spelling, is answered modify/resource-constraint with no
transfer created. -/
theorem c6_amended (sessions : List (String × Session))
    (table : List (String × IbbTransfer)) (st : OpenStanza) (content : Content)
    (hnew : tableLookup table st.sid = Option.none)
    (hc : get_content_by_transport_id sessions st.sid = some content)
    (hibb : content.transport.type = .inBandBytestream) :
    (st.blockSize = some (uint_to_str content.transport.blocksize) →
      on_bytestream_open sessions table st =
        (tableInsert table st.sid ⟨content.description.payload, 0, Option.none⟩,
         [Envelope.ack st.id st.sender])) ∧
    (st.blockSize ≠ some (uint_to_str content.transport.blocksize) →
      on_bytestream_open sessions table st =
        (table, [Envelope.errorReply st.id st.sender
                   "modify" "resource-constraint"])) := by
  constructor <;> intro h <;>
    simp [on_bytestream_open, tableContains, hnew, hc, hibb, h]

/-- C6 witness: the amended theorem applied to the negotiated size 4096
with the canonical attribute 4096 (accepted, transfer created) after
discharging the lookup hypotheses. -/
theorem c6_amended_witness :
    get_content_by_transport_id c6Sessions "t1" = some c6Content ∧
    on_bytestream_open c6Sessions []
        ⟨"i6w", "romeo@montague.net/orchard", "t1", some "4096"⟩ =
      (tableInsert [] "t1" ⟨c6File, 0, Option.none⟩,
       [Envelope.ack "i6w" "romeo@montague.net/orchard"]) :=
  ⟨by decide,
   (c6_amended c6Sessions []
      ⟨"i6w", "romeo@montague.net/orchard", "t1", some "4096"⟩ c6Content
      rfl (by decide) rfl).1 (by decide)⟩

/-- Stringified senders parse back to themselves, unknown included. -/
theorem parse_stringify_senders (s : Senders) :
    parse_content_senders (some (stringify_senders s)) = s := by
  cases s <;> rfl

/-- C8: the claim amended to what the source does: for a file-transfer
content on an IBB transport, the emitted accept content parses back with
the same name, senders, FileInfo fields, transport sid and block size,
but the creator attribute is emitted as the literal initiator, so the
parsed creator is Initiator whatever the stored creator was. -/
theorem c8_amended (c : Content)
    (hd : c.description.type = .fileTransfer)
    (ht : c.transport.type = .inBandBytestream)
    (hb : c.transport.blocksize < 4294967296) :
    roundTripContent c = some { c with creator := Creator.initiator } := by
  obtain ⟨cname, ccreator, csenders, dsc, tp⟩ := c
  obtain ⟨dtype, payload⟩ := dsc
  obtain ⟨ttype, tsid, tbs⟩ := tp
  simp only at hd ht hb
  subst hd
  subst ht
  obtain ⟨pt, pd, pn, ps, ph⟩ := payload
  simp [roundTripContent, buildAcceptContent, parseContentStep,
        description_type_to_ns, transport_type_to_ns, parse_content_creator,
        parse_stringify_senders, STANZA_NS_JINGLE_FT5,
        STANZA_NS_JINGLE_TRANSPORTS_IBB, tableInsert, tableLookup,
        atoiUint_uint_to_str hb]

/-- C8 witness: the amended theorem applied to the concrete content with
stored creator Responder. -/
theorem c8_amended_witness :
    c8Content.description.type = DescriptionType.fileTransfer ∧
    c8Content.transport.blocksize < 4294967296 ∧
    roundTripContent c8Content = some { c8Content with creator := Creator.initiator } :=
  ⟨rfl, by decide, c8_amended c8Content rfl rfl (by decide)⟩

/-- C9: the claim amended to what the source does: for a data stanza
whose sid is unknown, the reply is cancel/item-not-found only when the
seq attribute parses as a 16-bit unsigned and the body base64-decode is
non-NULL; an unparseable seq drops the stanza silently, and a NULL decode
is answered cancel/bad-request; in every case the registry is unchanged. -/
theorem c9_amended (env : IbbEnv) (table : List (String × IbbTransfer))
    (st : DataStanza) (sid : String)
    (hsid : st.sid = some sid) (hmiss : tableLookup table sid = Option.none) :
    (st.seqRaw.bind convert_str_to_uint16 = Option.none →
      on_bytestream_data env table st = ⟨table, [], []⟩) ∧
    (∀ n, st.seqRaw.bind convert_str_to_uint16 = some n → st.decoded = Option.none →
      on_bytestream_data env table st =
        ⟨table, [Envelope.errorReply st.id st.sender "cancel" "bad-request"], []⟩) ∧
    (∀ n d, st.seqRaw.bind convert_str_to_uint16 = some n → st.decoded = some d →
      on_bytestream_data env table st =
        ⟨table, [Envelope.errorReply st.id st.sender "cancel" "item-not-found"],
         []⟩) := by
  refine ⟨?_, ?_, ?_⟩
  · intro h
    cases hr : st.seqRaw with
    | none => simp [on_bytestream_data, hsid, hr]
    | some r =>
      rw [hr] at h
      simp only [Option.some_bind] at h
      simp [on_bytestream_data, hsid, hr, h]
  · intro n h hdec
    cases hr : st.seqRaw with
    | none => rw [hr] at h; simp at h
    | some r =>
      rw [hr] at h
      simp only [Option.some_bind] at h
      simp [on_bytestream_data, hsid, hr, h, hdec]
  · intro n d h hdec
    cases hr : st.seqRaw with
    | none => rw [hr] at h; simp at h
    | some r =>
      rw [hr] at h
      simp only [Option.some_bind] at h
      simp [on_bytestream_data, hsid, hr, h, hdec, hmiss]

def c9wStanza : DataStanza := ⟨"i9w", "p9", some "bogus", some "0", some [1]⟩

/-- C9 witness: the amended theorem applied to an empty registry with a
parseable seq and a decodable body: the reply is item-not-found. -/
theorem c9_amended_witness :
    tableLookup ([] : List (String × IbbTransfer)) "bogus" = Option.none ∧
    on_bytestream_data ⟨true⟩ [] c9wStanza =
      ⟨[], [Envelope.errorReply "i9w" "p9" "cancel" "item-not-found"], []⟩ :=
  ⟨rfl,
   (c9_amended ⟨true⟩ [] c9wStanza "bogus" rfl rfl).2.2 0 [1] (by decide) rfl⟩

/-- C10: a session-initiate whose sid already keys a live session
replaces it silently: the final registry maps the sid to the new Accepted
session, the envelopes sent are the ack and the session-accept for the
new session, and they coincide with what the handler would send had the
displaced session not existed — no terminate or error is emitted for it. -/
theorem c10_replacement (myJid : String) (reg : List (String × Session))
    (st : InitStanza) (sid ini : String) (old : Session)
    (hsid : st.sid = some sid) (hini : st.initiator = some ini)
    (hfrom : ini = st.sender) (_hold : tableLookup reg sid = some old)
    (table : List (String × Content)) (hch : st.children ≠ [])
    (hp : parseContents [] st.children = some table) :
    ∃ out : JingleOut,
      handle_session_init myJid reg st = some out ∧
      tableLookup out.sessions sid = some ⟨ini, sid, .accepted, table⟩ ∧
      out.sent = [Envelope.ack st.id st.sender,
                  Envelope.sessionAccept ini sid myJid
                    (table.map (fun p => buildAcceptContent p.2))] ∧
      (handle_session_init myJid (tableRemove reg sid) st).map JingleOut.sent
        = some out.sent := by
  refine ⟨⟨tableInsert (tableInsert reg sid ⟨ini, sid, .initiated, []⟩) sid
             ⟨ini, sid, .accepted, table⟩,
           [Envelope.ack st.id st.sender,
            Envelope.sessionAccept ini sid myJid
              (table.map (fun p => buildAcceptContent p.2))]⟩, ?_, ?_, rfl, ?_⟩
  · simp [handle_session_init, hsid, hini, hfrom, hch, hp]
  · exact tableLookup_tableInsert_self _ _ _
  · simp [handle_session_init, hsid, hini, hfrom, hch, hp]

def c10Old : Session := ⟨"old@initiator/r", "s1", .accepted, []⟩

def c10File : FileStanza :=
  ⟨some "text/plain", some "2023-03-03", some "n10.txt", some "9", Option.none⟩

def c10Child : ContentChild :=
  ⟨"content", some "c", some "initiator", some "both",
   some ⟨some STANZA_NS_JINGLE_FT5, some c10File⟩,
   some ⟨some STANZA_NS_JINGLE_TRANSPORTS_IBB, "t9", "1024"⟩⟩

def c10Stanza : InitStanza :=
  ⟨"romeo@montague.net/orchard", "id10", some "s1",
   some "romeo@montague.net/orchard", [c10Child]⟩

def c10Content : Content :=
  ⟨"c", .initiator, .both,
   ⟨.fileTransfer, ⟨some "text/plain", some "2023-03-03", some "n10.txt",
                    some "9", Option.none⟩⟩,
   ⟨.inBandBytestream, "t9", 1024⟩⟩

/-- C10 witness: the theorem applied to a registry already holding a live
session under s1 and an initiate reusing sid s1 with one valid content. -/
theorem c10_replacement_witness :
    tableLookup [("s1", c10Old)] "s1" = some c10Old ∧
    ∃ out : JingleOut,
      handle_session_init "juliet@capulet.com" [("s1", c10Old)] c10Stanza
        = some out ∧
      tableLookup out.sessions "s1"
        = some ⟨"romeo@montague.net/orchard", "s1", .accepted,
                [("c", c10Content)]⟩ ∧
      out.sent = [Envelope.ack "id10" "romeo@montague.net/orchard",
                  Envelope.sessionAccept "romeo@montague.net/orchard" "s1"
                    "juliet@capulet.com"
                    ([("c", c10Content)].map (fun p => buildAcceptContent p.2))] ∧
      (handle_session_init "juliet@capulet.com"
          (tableRemove [("s1", c10Old)] "s1") c10Stanza).map JingleOut.sent
        = some out.sent :=
  ⟨by decide,
   c10_replacement "juliet@capulet.com" [("s1", c10Old)] c10Stanza "s1"
     "romeo@montague.net/orchard" c10Old rfl rfl rfl (by decide)
     [("c", c10Content)] (by decide) (by decide)⟩

end Profanity



